import Mathlib

/-!
Shallow embedding of the autocutai video-editing pipeline (Python sources under
`src/`) together with proofs about its behaviour.

Conventions of the embedding:
* Python `float` values are modelled as `ℚ` (JSON serialisation of Python
  floats is exact, so rationals capture the store-level behaviour).
* Python dictionaries / JSON documents are modelled by the `Json` inductive.
* Fallible Python code (raised exceptions) is modelled with `Except String`
  carrying the exception message.
* External effects (the Whisper HTTP call, ffmpeg subprocesses, the current
  wall-clock time) are supplied as explicit oracle parameters, so every
  function here is pure and executable.
-/

/-- A JSON-like value: the shape of Python dicts produced by `json.load`,
`project.dict()` and the Whisper API responses.  Numbers are rationals since
JSON round-trips Python ints and floats exactly. -/
inductive Json where
  | null : Json
  | str : String → Json
  | num : ℚ → Json
  | bool : Bool → Json
  | arr : List Json → Json
  | obj : List (String × Json) → Json

/-- Aspect ratio enum from `src/src/models/project.py` (`AspectRatio`). -/
inductive AspectRatio where
  | horizontal
  | vertical
deriving DecidableEq

/-- Edit mode enum from `src/src/models/project.py` (`EditMode`). -/
inductive EditMode where
  | chronological
  | manual
deriving DecidableEq

/-- Track type enum from `src/src/models/project.py` (`TrackType`). -/
inductive TrackType where
  | video
  | audio
  | image
deriving DecidableEq

/-- The string value of an `AspectRatio` member (it subclasses `str`). -/
def AspectRatio.value : AspectRatio → String
  | .horizontal => "horizontal"
  | .vertical => "vertical"

/-- Python `str(enum_member)` for `AspectRatio`: `Enum.__str__` produces
`"AspectRatio.HORIZONTAL"` / `"AspectRatio.VERTICAL"`, which is what an
f-string interpolation of the member yields. -/
def AspectRatio.pyStr : AspectRatio → String
  | .horizontal => "AspectRatio.HORIZONTAL"
  | .vertical => "AspectRatio.VERTICAL"

/-- The string value of an `EditMode` member. -/
def EditMode.value : EditMode → String
  | .chronological => "chronological"
  | .manual => "manual"

/-- The string value of a `TrackType` member. -/
def TrackType.value : TrackType → String
  | .video => "video"
  | .audio => "audio"
  | .image => "image"

/-- A Python `datetime` value as the tuple of calendar fields that
`datetime.isoformat` prints. -/
structure DateTime where
  year : Nat
  month : Nat
  day : Nat
  hour : Nat
  minute : Nat
  second : Nat
  microsecond : Nat
deriving DecidableEq

/-- Word-level timestamp model from `src/src/models/transcription.py`
(`WordTimestamp`).  The Python field `end` is spelled `end_` here because
`end` is a Lean keyword. -/
structure WordTimestamp where
  word : String
  start : ℚ
  end_ : ℚ
  confidence : Option ℚ
deriving DecidableEq

/-- Segment model from `src/src/models/transcription.py` (`Segment`). -/
structure Segment where
  id : Int
  start : ℚ
  end_ : ℚ
  text : String
  words : List WordTimestamp
deriving DecidableEq

/-- Metadata model from `src/src/models/transcription.py`
(`TranscriptionMetadata`). -/
structure TranscriptionMetadata where
  model : String
  processing_time : ℚ
  timestamp : ℚ
  language : Option String
deriving DecidableEq

/-- Complete transcription response model from
`src/src/models/transcription.py` (`TranscriptionResponse`). -/
structure TranscriptionResponse where
  transcript : String
  language : String
  duration : ℚ
  words : List WordTimestamp
  segments : List Segment
  metadata : TranscriptionMetadata
deriving DecidableEq

/-!
Section: Transcription Client — `src/src/services/whisper_service.py`

`WhisperService.transcribe_audio` delegates to `_call_real_api`, which always
performs one `httpx` POST and either returns `response.json()` on HTTP 200 or
raises `Exception(f"API returned status {status}")`.  The network is an
oracle: `Except String (Nat × Json)` is the outcome of the POST (`error` =
transport-level exception propagating out of `httpx`, `ok (status, body)` =
an HTTP response).
-/

/-- Outcome of the single `httpx` POST performed by `_call_real_api`. -/
structure WhisperEnv where
  response : Except String (Nat × Json)

/-- Default request timeout set in `WhisperService.__init__`
(`self.timeout = 60.0`). -/
def whisperDefaultTimeout : ℚ := 60

/-- Embedding of `WhisperService._call_real_api`: sends exactly one request
(the returned `Nat` counts outbound requests) and inspects the status code.
The audio bytes, filename and language only shape the request payload, never
the control flow. -/
def callRealApi (env : WhisperEnv) (audioData : List Nat) (filename : String)
    (language : String) : Except String Json × Nat :=
  match env.response with
  | .error e => (.error e, 1)
  | .ok (status, body) =>
      if status = 200 then (.ok body, 1)
      else (.error ("API returned status " ++ toString status), 1)

/-- Embedding of `WhisperService.transcribe_audio`: directly returns
`_call_real_api` — there is no input validation step in the client. -/
def transcribe_audio (env : WhisperEnv) (audioData : List Nat)
    (filename : String) (language : String) : Except String Json × Nat :=
  callRealApi env audioData filename language

/-!
Section: Response transformation — `src/src/api/transcription_api.py`

`_transform_api_response` turns a raw Whisper API dict into the
`TranscriptionResponse` shape.  The raw dict is modelled structurally: every
field the code reads with `.get` is an `Option`, matching key presence.
-/

/-- A word object of the raw API response; the provider uses the key `text`
for the word text (read via `word_data.get`). -/
structure ApiWord where
  text : Option String
  start : Option ℚ
  end_ : Option ℚ
  confidence : Option ℚ

/-- A segment object of the raw API response (read via `segment_data.get`). -/
structure ApiSegment where
  start : Option ℚ
  end_ : Option ℚ
  text : Option String
  words : Option (List ApiWord)

/-- The raw API response dict (read via `api_result.get`). -/
structure ApiResult where
  text : Option String
  segments : Option (List ApiSegment)

/-- The per-word transformation inside `_transform_api_response`:
`WordTimestamp(word=word_data.get('text', ''), start=..., end=...,
confidence=word_data.get('confidence', None))`. -/
def transformWord (w : ApiWord) : WordTimestamp :=
  { word := w.text.getD ""
    start := w.start.getD 0
    end_ := w.end_.getD 0
    confidence := w.confidence }

/-- The `for i, segment_data in enumerate(...)` loop of
`_transform_api_response`: returns the accumulated `all_words` list and the
`segments` list.  Each segment appends its transformed words to `all_words`
in order and is given `id = i`. -/
def transformSegments : Nat → List ApiSegment → List WordTimestamp × List Segment
  | _, [] => ([], [])
  | i, s :: rest =>
      let segmentWords := (s.words.getD []).map transformWord
      let tail := transformSegments (i + 1) rest
      (segmentWords ++ tail.1,
        { id := (i : Int)
          start := s.start.getD 0
          end_ := s.end_.getD 0
          text := s.text.getD ""
          words := segmentWords } :: tail.2)

/-- The `duration` computation of `_transform_api_response`:
`0.0` unless `'segments' in api_result and api_result['segments']` (a present,
non-empty list), in which case the last segment's `end` (default `0.0`). -/
def transformDuration (api : ApiResult) : ℚ :=
  match api.segments with
  | some segs =>
      match segs.getLast? with
      | some lastSeg => lastSeg.end_.getD 0
      | none => 0
  | none => 0

/-- Embedding of `_transform_api_response` from
`src/src/api/transcription_api.py`.  `now` is the `time.time()` value used
for `metadata.timestamp`. -/
def transform_api_response (api : ApiResult) (language : String) (now : ℚ) :
    TranscriptionResponse :=
  let pair := transformSegments 0 (api.segments.getD [])
  { transcript := api.text.getD ""
    language := language
    duration := transformDuration api
    words := pair.1
    segments := pair.2
    metadata :=
      { model := "whisper-api"
        processing_time := 0
        timestamp := now
        language := some language } }

/-!
Section: Track / Project data model — `src/src/models/project.py`

Pydantic models.  `Project.status` is a `Literal` of four strings and is kept
as a `String` here (the literal check is part of load-time validation,
`loadProject` below).  `VideoTrack.transcription` is `Optional[Dict[str,
Any]]`; plain attribute assignment in pydantic v1 does not re-validate, so the
in-memory field may hold any JSON value and is modelled as `Option Json`.
-/

/-- Track model from `src/src/models/project.py` (`VideoTrack`). -/
structure VideoTrack where
  id : String
  type : TrackType
  filename : String
  file_path : String
  duration : ℚ
  start_time : Option ℚ
  end_time : Option ℚ
  position : Int
  metadata : List (String × Json)
  transcription : Option Json

/-- Settings model from `src/src/models/project.py` (`ProjectSettings`). -/
structure ProjectSettings where
  aspect_ratio : AspectRatio
  edit_mode : EditMode
  remove_duplicates : Bool
  smart_pause_cutter : Bool
  generate_subtitles : Bool
  insert_suggestions : Bool
deriving DecidableEq

/-- Project model from `src/src/models/project.py` (`Project`). -/
structure Project where
  id : String
  name : String
  description : Option String
  created_at : DateTime
  updated_at : DateTime
  tracks : List VideoTrack
  settings : ProjectSettings
  status : String
  output_path : Option String
  user_id : Option String

/-!
Section: Media tool adapter — `src/src/services/video_processor.py`

Each ffmpeg invocation is modelled as the literal argument list the code
builds (with the default `ffmpeg_path = "ffmpeg"`).  The external process is
an oracle `FfmpegEnv.run`: `some stderr` models a nonzero exit with that
diagnostic text, `none` models exit code 0.
-/

/-- Outcome oracle for spawned ffmpeg processes
(`VideoProcessor._run_ffmpeg_command`). -/
structure FfmpegEnv where
  run : List String → Option String

/-- Embedding of `VideoProcessor._run_ffmpeg_command`: raises
`RuntimeError(f"FFmpeg command failed: {stderr}")` on a nonzero exit. -/
def runFfmpegCommand (env : FfmpegEnv) (cmd : List String) : Except String Unit :=
  match env.run cmd with
  | some stderr => .error ("FFmpeg command failed: " ++ stderr)
  | none => .ok ()

/-- The single-quote character, used by the ffmpeg concat file list. -/
def singleQuote : String := String.mk [Char.ofNat 39]

/-- The sort key of `_arrange_tracks_chronologically`:
`t.metadata.get('creation_time', 0)`.  The claims are about numeric
creation-time metadata, so a present value is read as a number (a present
non-numeric value, which Python would compare or fail on dynamically, is out
of scope and read as 0). -/
def creationTimeKey (t : VideoTrack) : ℚ :=
  match t.metadata.lookup "creation_time" with
  | some (Json.num q) => q
  | _ => 0

/-- The order used to model Python `sorted(xs, key=k)`: lexicographic on
(key, original index).  On index-value pairs with distinct indices it is
total, transitive and antisymmetric, so the sorted permutation is unique and
equals the output of Python's stable sort. -/
def pyKeyOrder {α : Type} (key : α → ℚ) (a b : Nat × α) : Prop :=
  key a.2 < key b.2 ∨ (key a.2 = key b.2 ∧ a.1 ≤ b.1)

instance {α : Type} (key : α → ℚ) : DecidableRel (pyKeyOrder key) := by
  unfold pyKeyOrder; infer_instance

/-- Python `sorted(xs, key=k)`: a stable sort by the key, modelled by
sorting index-value pairs in the `pyKeyOrder` order. -/
def pySortedByKey {α : Type} (key : α → ℚ) (xs : List α) : List α :=
  ((xs.enum).insertionSort (pyKeyOrder key)).map Prod.snd

/-- Embedding of `VideoProcessor._arrange_tracks_chronologically`: stable
sort by the `creation_time` metadata key (default 0), then reassign each
track's `position` to its index in the sorted order. -/
def arrange_tracks_chronologically (tracks : List VideoTrack) : List VideoTrack :=
  ((pySortedByKey creationTimeKey tracks).enum).map
    (fun q => { q.2 with position := (q.1 : Int) })

/-- Result of `VideoProcessor._combine_tracks`: the ffmpeg argument list, the
lines written to `temp/file_list.txt` (only in the concatenation branch), and
the output path. -/
structure CombineResult where
  cmd : List String
  fileListLines : Option (List String)
  output : String
deriving DecidableEq

/-- Embedding of `VideoProcessor._combine_tracks`.  The output filename
interpolates the `AspectRatio` enum member with `str()` semantics
(`final_output_AspectRatio.HORIZONTAL.mp4`).  A single track is stream
copied; any other length (including zero) takes the concat-list branch. -/
def combine_tracks (tracks : List VideoTrack) (settings : ProjectSettings) :
    CombineResult :=
  let output := "temp/final_output_" ++ settings.aspect_ratio.pyStr ++ ".mp4"
  match tracks with
  | [t] =>
      { cmd := ["ffmpeg", "-i", t.file_path, "-c", "copy", "-y", output]
        fileListLines := none
        output := output }
  | ts =>
      { cmd := ["ffmpeg", "-f", "concat", "-safe", "0", "-i",
          "temp/file_list.txt", "-c", "copy", "-y", output]
        fileListLines := some (ts.map (fun t =>
          "file " ++ singleQuote ++ t.file_path ++ singleQuote))
        output := output }

/-- The scale+pad filter chosen by `VideoProcessor._adjust_aspect_ratio`. -/
def scaleFilterFor (aspect : AspectRatio) : String :=
  if aspect = AspectRatio.vertical then
    "scale=720:1280:force_original_aspect_ratio=decrease,pad=720:1280:(ow-iw)/2:(oh-ih)/2"
  else
    "scale=1920:1080:force_original_aspect_ratio=decrease,pad=1920:1080:(ow-iw)/2:(oh-ih)/2"

/-- Embedding of `VideoProcessor._adjust_aspect_ratio`: returns the mutated
track (its `file_path` now pointing at the processed file) and the ffmpeg
argument list that is run before the mutation happens. -/
def adjust_aspect_ratio (track : VideoTrack) (aspect : AspectRatio) :
    VideoTrack × List String :=
  let processed_path := "temp/processed_" ++ track.id ++ ".mp4"
  ({ track with file_path := processed_path },
    ["ffmpeg", "-i", track.file_path, "-vf", scaleFilterFor aspect,
      "-c:a", "copy", "-y", processed_path])

/-- Embedding of `VideoProcessor._process_track`: video tracks get the
aspect-ratio adjustment (the ffmpeg run happens before the track's
`file_path` is updated, so a failed run leaves the track unchanged); the
duplicate-removal and pause-cutter helpers return the track unchanged. -/
def process_track (env : FfmpegEnv) (settings : ProjectSettings)
    (track : VideoTrack) : Except String VideoTrack :=
  if track.type = TrackType.video then
    let r := adjust_aspect_ratio track settings.aspect_ratio
    match runFfmpegCommand env r.2 with
    | .ok _ => .ok r.1
    | .error e => .error e
  else
    .ok track

/-- Identity-aware variant of `_arrange_tracks_chronologically` used inside
the full render: tracks are tagged with their index in `project.tracks` so
that in-place mutations (Python mutates the shared track objects) can be
written back in original list order afterwards. -/
def arrangeIndexed (pairs : List (Nat × VideoTrack)) : List (Nat × VideoTrack) :=
  ((pySortedByKey (fun q => creationTimeKey q.2) pairs).enum).map
    (fun r => (r.2.1, { r.2.2 with position := (r.1 : Int) }))

/-- The sequential `for track in tracks` processing loop of
`VideoProcessor.process_project`: stops at the first failing track.  On
failure the already-processed prefix keeps its mutated state and the failing
track and the rest are unchanged. -/
def processTracksSeq (env : FfmpegEnv) (settings : ProjectSettings) :
    List (Nat × VideoTrack) →
    Except (String × List (Nat × VideoTrack)) (List (Nat × VideoTrack))
  | [] => .ok []
  | (i, t) :: rest =>
      match process_track env settings t with
      | .error e => .error (e, (i, t) :: rest)
      | .ok t2 =>
          match processTracksSeq env settings rest with
          | .ok done => .ok ((i, t2) :: done)
          | .error (e, state) => .error (e, (i, t2) :: state)

/-- Write mutated track objects back into `project.tracks` order: sort the
index-tagged tracks by their original index. -/
def restoreOrder (pairs : List (Nat × VideoTrack)) : List VideoTrack :=
  (pairs.insertionSort (fun a b => a.1 ≤ b.1)).map Prod.snd

/-- The edit-mode dispatch at the top of `VideoProcessor.process_project`:
chronological mode sorts and renumbers, manual mode keeps `project.tracks`
exactly as it is. -/
def prepareTracks (p : Project) : List (Nat × VideoTrack) :=
  if p.settings.edit_mode = EditMode.chronological then
    arrangeIndexed p.tracks.enum
  else
    p.tracks.enum

/-- Embedding of `VideoProcessor.process_project`: arrange (chronological
mode sorts and reassigns positions, manual mode keeps the list as-is),
process each track, then combine.  Returns the outcome (output path or the
raised error) together with the state of `project.tracks` afterwards —
Python mutates the shared track objects, so their mutations survive even
when the run fails. -/
def video_process_project (env : FfmpegEnv) (p : Project) :
    Except String String × List VideoTrack :=
  match processTracksSeq env p.settings (prepareTracks p) with
  | .error (e, state) => (.error e, restoreOrder state)
  | .ok pairs =>
      let c := combine_tracks (pairs.map Prod.snd) p.settings
      match runFfmpegCommand env c.cmd with
      | .ok _ => (.ok c.output, restoreOrder pairs)
      | .error e => (.error e, restoreOrder pairs)

/-!
Section: Pipeline engine — `src/src/services/project_service.py`

`process_project` looks the project up, marks it `processing`, saves it,
transcribes, runs the settings-gated no-op stages, renders, and in a
`finally` block refreshes `updated_at` and saves again.  File reads plus the
Whisper call for the i-th track are one oracle `transcribe i`; the wall
clock is `now`.
-/

/-- Oracles consumed by one `ProjectService.process_project` run. -/
structure PipelineEnv where
  transcribe : Nat → Except String Json
  ffmpeg : FfmpegEnv
  now : DateTime

/-- Embedding of `ProjectService._transcribe_tracks`: every video or audio
track is transcribed; a per-track exception is caught and logged, leaving
that track's `transcription` unchanged.  The function itself never fails. -/
def transcribe_tracks (env : PipelineEnv) (p : Project) : Project :=
  { p with tracks := p.tracks.enum.map (fun q =>
      if q.2.type = TrackType.video ∨ q.2.type = TrackType.audio then
        match env.transcribe q.1 with
        | .ok j => { q.2 with transcription := some j }
        | .error _ => q.2
      else q.2) }

/-- Embedding of `ProjectService.process_project`.  `found` is the result of
`get_project(project_id)`.  Returns the outcome (the project on success, the
re-raised exception message on failure) paired with the list of snapshots
passed to `_save_project`, in order.  The settings-gated stages 2–5
(`_remove_duplicates`, `_smart_pause_cutter`, `_generate_subtitles`,
`_insert_media_suggestions`) only log and sleep, so they do not appear in
the state. -/
def process_project (env : PipelineEnv) (projectId : String)
    (found : Option Project) : Except String Project × List Project :=
  match found with
  | none => (.error ("Project " ++ projectId ++ " not found"), [])
  | some p =>
      let p1 := { p with status := "processing" }
      let p2 := transcribe_tracks env p1
      let rendered := video_process_project env.ffmpeg p2
      match rendered.1 with
      | .ok out =>
          let p4 := { p2 with
            tracks := rendered.2
            output_path := some out
            status := "completed"
            updated_at := env.now }
          (.ok p4, [p1, p4])
      | .error e =>
          let p4 := { p2 with
            tracks := rendered.2
            status := "error"
            updated_at := env.now }
          (.error e, [p1, p4])

/-!
Section: Track creation — `ProjectService._create_track_from_file`
-/

/-- Video extensions recognised by `_create_track_from_file`. -/
def videoExtensions : List String := [".mp4", ".mov", ".avi", ".mkv"]

/-- Audio extensions recognised by `_create_track_from_file`. -/
def audioExtensions : List String := [".mp3", ".wav", ".m4a", ".aac"]

/-- Image extensions recognised by `_create_track_from_file`. -/
def imageExtensions : List String := [".jpg", ".jpeg", ".png", ".gif"]

/-- Python `str.lower()`, character-wise (the recognised extensions are all
ASCII, where this agrees with Python). -/
def pyLower (s : String) : String := String.mk (s.data.map Char.toLower)

/-- The track-type classification of `_create_track_from_file`, applied to
the file's extension (`Path(file_path).suffix`): unknown extensions default
to `video`. -/
def trackTypeForSuffix (suffix : String) : TrackType :=
  if pyLower suffix ∈ videoExtensions then TrackType.video
  else if pyLower suffix ∈ audioExtensions then TrackType.audio
  else if pyLower suffix ∈ imageExtensions then TrackType.image
  else TrackType.video

/-- Embedding of `ProjectService._create_track_from_file`.  `newId` is the
generated uuid, `fileName`/`suffix` are `Path(file_path).name` and
`.suffix`, `fileSize` is the `stat` result (0 when the file is missing).
The demo code hardcodes `duration = 30.0`; `start_time`/`end_time` keep
their pydantic defaults (`None`). -/
def create_track_from_file (newId : String) (fileName : String)
    (suffix : String) (fileSize : ℚ) (filePath : String) (position : Int) :
    VideoTrack :=
  { id := newId
    type := trackTypeForSuffix suffix
    filename := fileName
    file_path := filePath
    duration := 30
    start_time := none
    end_time := none
    position := position
    metadata := [("filename", Json.str fileName), ("size", Json.num fileSize),
      ("extension", Json.str (pyLower suffix))]
    transcription := none }

/-!
Section: Project store — `ProjectService._save_project` / `_load_project`

`_save_project` dumps `project.dict()` to JSON with `created_at`/`updated_at`
replaced by `datetime.isoformat()` strings; `_load_project` parses them back
with `datetime.fromisoformat` and re-validates through `Project(**dict)`.
The embedding keeps the persisted record as a `Json` value and models the
pydantic validation performed at load time.  `fromisoformat` here accepts
exactly the strings `isoformat` produces (Python accepts a few more spellings
that never occur in the store's own records).
-/

/-- The character of a single decimal digit. -/
def digitChar (d : Nat) : Char := Char.ofNat (48 + d)

/-- Hyphen. -/
def dashChar : Char := Char.ofNat 45

/-- Colon. -/
def colonChar : Char := Char.ofNat 58

/-- Full stop. -/
def dotChar : Char := Char.ofNat 46

/-- The capital `T` separating date and time in ISO format. -/
def timeSepChar : Char := Char.ofNat 84

/-- Fixed-width zero-padded decimal digits of `n` (most significant first),
as printed by `datetime.isoformat`. -/
def padChars : Nat → Nat → List Char
  | 0, _ => []
  | w + 1, n => digitChar (n / 10 ^ w % 10) :: padChars w n

/-- The character sequence of `datetime.isoformat()`:
`YYYY-MM-DDTHH:MM:SS` plus `.ffffff` exactly when the microsecond field is
nonzero. -/
def isoChars (d : DateTime) : List Char :=
  padChars 4 d.year ++ [dashChar] ++ padChars 2 d.month ++ [dashChar] ++
  padChars 2 d.day ++ [timeSepChar] ++ padChars 2 d.hour ++ [colonChar] ++
  padChars 2 d.minute ++ [colonChar] ++ padChars 2 d.second ++
  (if d.microsecond = 0 then [] else dotChar :: padChars 6 d.microsecond)

/-- Embedding of `datetime.isoformat()`. -/
def isoformat (d : DateTime) : String := String.mk (isoChars d)

/-- Numeric value of a decimal digit character. -/
def digitVal (c : Char) : Option Nat :=
  if 48 ≤ c.toNat ∧ c.toNat ≤ 57 then some (c.toNat - 48) else none

/-- Read exactly `w` decimal digits, extending the accumulator. -/
def readNum : Nat → Nat → List Char → Option (Nat × List Char)
  | 0, acc, cs => some (acc, cs)
  | _ + 1, _, [] => none
  | w + 1, acc, c :: cs =>
      match digitVal c with
      | some d => readNum w (acc * 10 + d) cs
      | none => none

/-- Consume one expected character. -/
def expectChar (ch : Char) : List Char → Option (List Char)
  | [] => none
  | c :: cs => if c = ch then some cs else none

/-- Character-level reading of an ISO datetime string as written by
`isoformat`. -/
def parseIsoChars (cs : List Char) : Option DateTime := do
  let (y, cs) ← readNum 4 0 cs
  let cs ← expectChar dashChar cs
  let (mo, cs) ← readNum 2 0 cs
  let cs ← expectChar dashChar cs
  let (da, cs) ← readNum 2 0 cs
  let cs ← expectChar timeSepChar cs
  let (ho, cs) ← readNum 2 0 cs
  let cs ← expectChar colonChar cs
  let (mi, cs) ← readNum 2 0 cs
  let cs ← expectChar colonChar cs
  let (se, cs) ← readNum 2 0 cs
  match cs with
  | [] => some ⟨y, mo, da, ho, mi, se, 0⟩
  | c :: rest =>
      if c = dotChar then
        match readNum 6 0 rest with
        | some (us, []) => some ⟨y, mo, da, ho, mi, se, us⟩
        | _ => none
      else none

/-- Embedding of `datetime.fromisoformat` on store-written strings. -/
def fromisoformat (s : String) : Option DateTime := parseIsoChars s.data

/-- A `DateTime` whose fields fit the widths `isoformat` prints (every real
`datetime.now()` value does). -/
def validDateTime (d : DateTime) : Prop :=
  d.year < 10000 ∧ d.month < 100 ∧ d.day < 100 ∧ d.hour < 100 ∧
  d.minute < 100 ∧ d.second < 100 ∧ d.microsecond < 1000000

instance (d : DateTime) : Decidable (validDateTime d) := by
  unfold validDateTime; infer_instance

/-- Optional string fields serialise to `null` or a JSON string. -/
def optStrJson : Option String → Json
  | none => Json.null
  | some s => Json.str s

/-- Optional float fields serialise to `null` or a JSON number. -/
def optNumJson : Option ℚ → Json
  | none => Json.null
  | some q => Json.num q

/-- The dict `project.dict()` produces for one track (pydantic field order),
as serialised by `json.dump`: enum members subclass `str`, so they dump as
their value strings. -/
def trackToDict (t : VideoTrack) : Json :=
  Json.obj [("id", Json.str t.id), ("type", Json.str t.type.value),
    ("filename", Json.str t.filename), ("file_path", Json.str t.file_path),
    ("duration", Json.num t.duration), ("start_time", optNumJson t.start_time),
    ("end_time", optNumJson t.end_time),
    ("position", Json.num (t.position : ℚ)), ("metadata", Json.obj t.metadata),
    ("transcription", match t.transcription with
      | none => Json.null
      | some j => j)]

/-- The dict `project.dict()` produces for the settings. -/
def settingsToDict (s : ProjectSettings) : Json :=
  Json.obj [("aspect_ratio", Json.str s.aspect_ratio.value),
    ("edit_mode", Json.str s.edit_mode.value),
    ("remove_duplicates", Json.bool s.remove_duplicates),
    ("smart_pause_cutter", Json.bool s.smart_pause_cutter),
    ("generate_subtitles", Json.bool s.generate_subtitles),
    ("insert_suggestions", Json.bool s.insert_suggestions)]

/-- Embedding of `ProjectService._save_project`: the JSON record written to
`projects/{id}.json` — `project.dict()` with `created_at`/`updated_at`
overwritten by their `isoformat` strings. -/
def saveProject (p : Project) : Json :=
  Json.obj [("id", Json.str p.id), ("name", Json.str p.name),
    ("description", optStrJson p.description),
    ("created_at", Json.str (isoformat p.created_at)),
    ("updated_at", Json.str (isoformat p.updated_at)),
    ("tracks", Json.arr (p.tracks.map trackToDict)),
    ("settings", settingsToDict p.settings), ("status", Json.str p.status),
    ("output_path", optStrJson p.output_path),
    ("user_id", optStrJson p.user_id)]

/-- Pydantic `str` field validation on a JSON value. -/
def Json.asStr : Json → Option String
  | Json.str s => some s
  | _ => none

/-- Pydantic `float` field validation on a JSON value (the store only ever
writes numbers into float fields, so pydantic's exotic coercions from
strings or bools never fire on store records and are not modelled). -/
def Json.asNum : Json → Option ℚ
  | Json.num q => some q
  | _ => none

/-- Pydantic `int` field validation on a JSON value read back from the
store: the store writes Python ints, which round-trip as integral numbers. -/
def Json.asInt : Json → Option Int
  | Json.num q => if q.den = 1 then some q.num else none
  | _ => none

/-- Pydantic `bool` field validation on a JSON value from the store. -/
def Json.asBool : Json → Option Bool
  | Json.bool b => some b
  | _ => none

/-- Pydantic `Optional[...]` validation: `null` is `None`. -/
def Json.asOpt (f : Json → Option α) : Json → Option (Option α)
  | Json.null => some none
  | j => (f j).map some

/-- Pydantic validation of the `TrackType` enum from its value string. -/
def parseTrackType : String → Option TrackType
  | "video" => some TrackType.video
  | "audio" => some TrackType.audio
  | "image" => some TrackType.image
  | _ => none

/-- Pydantic validation of the `AspectRatio` enum from its value string. -/
def parseAspectRatio : String → Option AspectRatio
  | "horizontal" => some AspectRatio.horizontal
  | "vertical" => some AspectRatio.vertical
  | _ => none

/-- Pydantic validation of the `EditMode` enum from its value string. -/
def parseEditMode : String → Option EditMode
  | "chronological" => some EditMode.chronological
  | "manual" => some EditMode.manual
  | _ => none

/-- Pydantic validation of one track dict (`VideoTrack(**d)` inside
`Project(**project_dict)`).  Fields with pydantic defaults fall back to the
default when the key is missing. -/
def loadTrack (j : Json) : Option VideoTrack :=
  match j with
  | Json.obj fields => do
      let id ← (fields.lookup "id").bind Json.asStr
      let ty ← ((fields.lookup "type").bind Json.asStr).bind parseTrackType
      let filename ← (fields.lookup "filename").bind Json.asStr
      let file_path ← (fields.lookup "file_path").bind Json.asStr
      let duration ← (fields.lookup "duration").bind Json.asNum
      let start_time ← match fields.lookup "start_time" with
        | none => some none
        | some v => Json.asOpt Json.asNum v
      let end_time ← match fields.lookup "end_time" with
        | none => some none
        | some v => Json.asOpt Json.asNum v
      let position ← (fields.lookup "position").bind Json.asInt
      let metadata ← match fields.lookup "metadata" with
        | none => some []
        | some (Json.obj m) => some m
        | some _ => none
      let transcription ← match fields.lookup "transcription" with
        | none => some none
        | some Json.null => some none
        | some (Json.obj o) => some (some (Json.obj o))
        | some _ => none
      pure { id := id
             type := ty
             filename := filename
             file_path := file_path
             duration := duration
             start_time := start_time
             end_time := end_time
             position := position
             metadata := metadata
             transcription := transcription }
  | _ => none

/-- The default `ProjectSettings()` (all pydantic field defaults). -/
def defaultSettings : ProjectSettings :=
  { aspect_ratio := AspectRatio.horizontal
    edit_mode := EditMode.chronological
    remove_duplicates := false
    smart_pause_cutter := false
    generate_subtitles := false
    insert_suggestions := false }

/-- Pydantic validation of the settings dict, with per-field defaults. -/
def loadSettings (j : Json) : Option ProjectSettings :=
  match j with
  | Json.obj fields => do
      let ar ← match fields.lookup "aspect_ratio" with
        | none => some AspectRatio.horizontal
        | some v => (Json.asStr v).bind parseAspectRatio
      let em ← match fields.lookup "edit_mode" with
        | none => some EditMode.chronological
        | some v => (Json.asStr v).bind parseEditMode
      let rd ← match fields.lookup "remove_duplicates" with
        | none => some false
        | some v => Json.asBool v
      let sp ← match fields.lookup "smart_pause_cutter" with
        | none => some false
        | some v => Json.asBool v
      let gs ← match fields.lookup "generate_subtitles" with
        | none => some false
        | some v => Json.asBool v
      let ins ← match fields.lookup "insert_suggestions" with
        | none => some false
        | some v => Json.asBool v
      pure { aspect_ratio := ar
             edit_mode := em
             remove_duplicates := rd
             smart_pause_cutter := sp
             generate_subtitles := gs
             insert_suggestions := ins }
  | _ => none

/-- Pydantic validation of the `tracks` list: each entry is validated as a
`VideoTrack` in order; the first invalid entry fails the whole load. -/
def loadTracks : List Json → Option (List VideoTrack)
  | [] => some []
  | j :: rest => do
      let t ← loadTrack j
      let ts ← loadTracks rest
      pure (t :: ts)

/-- The four legal `Project.status` literals. -/
def statusLiterals : List String := ["draft", "processing", "completed", "error"]

/-- Embedding of `ProjectService._load_project`: read the JSON record, parse
`created_at`/`updated_at` with `fromisoformat` (a `KeyError` or parse error
raises), then validate the whole dict as `Project(**project_dict)`. -/
def loadProject (j : Json) : Option Project :=
  match j with
  | Json.obj fields => do
      let created ← ((fields.lookup "created_at").bind Json.asStr).bind fromisoformat
      let updated ← ((fields.lookup "updated_at").bind Json.asStr).bind fromisoformat
      let id ← (fields.lookup "id").bind Json.asStr
      let name ← (fields.lookup "name").bind Json.asStr
      let description ← match fields.lookup "description" with
        | none => some none
        | some v => Json.asOpt Json.asStr v
      let tracks ← match fields.lookup "tracks" with
        | none => some []
        | some (Json.arr js) => loadTracks js
        | some _ => none
      let settings ← match fields.lookup "settings" with
        | none => some defaultSettings
        | some v => loadSettings v
      let status ← match fields.lookup "status" with
        | none => some "draft"
        | some (Json.str s) => if s ∈ statusLiterals then some s else none
        | some _ => none
      let output_path ← match fields.lookup "output_path" with
        | none => some none
        | some v => Json.asOpt Json.asStr v
      let user_id ← match fields.lookup "user_id" with
        | none => some none
        | some v => Json.asOpt Json.asStr v
      pure { id := id
             name := name
             description := description
             created_at := created
             updated_at := updated
             tracks := tracks
             settings := settings
             status := status
             output_path := output_path
             user_id := user_id }
  | _ => none

/-!
Section: Concrete sample data used by witnesses and counterexamples
-/

/-- A concrete timestamp. -/
def sampleDT : DateTime := ⟨2024, 3, 9, 14, 30, 5, 123456⟩

/-- A later concrete timestamp, used as the pipeline's wall clock. -/
def sampleDT2 : DateTime := ⟨2024, 3, 9, 14, 31, 0, 0⟩

/-- A concrete uploaded video track. -/
def sampleTrack : VideoTrack :=
  { id := "t1"
    type := TrackType.video
    filename := "a.mp4"
    file_path := "uploads/a.mp4"
    duration := 30
    start_time := none
    end_time := none
    position := 0
    metadata := []
    transcription := none }

/-- A concrete track carrying a numeric `creation_time` metadata value. -/
def ctTrack (trackId : String) (ct : ℚ) (pos : Int) : VideoTrack :=
  { sampleTrack with id := trackId
                     metadata := [("creation_time", Json.num ct)]
                     position := pos }

/-- A concrete project with no tracks. -/
def sampleProject : Project :=
  { id := "p1"
    name := "demo"
    description := none
    created_at := sampleDT
    updated_at := sampleDT
    tracks := []
    settings := defaultSettings
    status := "draft"
    output_path := none
    user_id := none }

/-- An ffmpeg oracle where every spawned process exits 0. -/
def okFfmpeg : FfmpegEnv := ⟨fun _ => none⟩

/-- An ffmpeg oracle where every spawned process exits nonzero with
diagnostic text `boom`. -/
def failFfmpeg : FfmpegEnv := ⟨fun _ => some "boom"⟩

/-- A pipeline environment where transcription and rendering succeed. -/
def okPipelineEnv : PipelineEnv :=
  ⟨fun _ => .ok (Json.obj [("text", Json.str "hi")]), okFfmpeg, sampleDT2⟩

/-- A pipeline environment where every transcription call raises and every
ffmpeg process fails. -/
def failPipelineEnv : PipelineEnv :=
  ⟨fun _ => .error "connection refused", failFfmpeg, sampleDT2⟩

/-- A whisper oracle answering HTTP 200 with a concrete body. -/
def okWhisperEnv : WhisperEnv :=
  ⟨.ok (200, Json.obj [("text", Json.str "hi")])⟩

/-- A whisper oracle answering HTTP 503. -/
def errWhisperEnv : WhisperEnv := ⟨.ok (503, Json.str "unavailable")⟩

/-- Dict-likeness of a track's in-memory `transcription` value: pydantic only
accepts `None` or a dict when re-validating at load time. -/
def transcriptionDictLike (t : VideoTrack) : Bool :=
  match t.transcription with
  | none => true
  | some (Json.obj _) => true
  | some _ => false

/-- Validity of a project for the store round trip: printable timestamps, a
legal status literal, dict-like transcriptions. -/
def validProject (p : Project) : Prop :=
  validDateTime p.created_at ∧ validDateTime p.updated_at ∧
  p.status ∈ statusLiterals ∧ ∀ t ∈ p.tracks, transcriptionDictLike t = true

/-!
Section: Lemmas: the ISO timestamp round trip
-/

theorem digitVal_digitChar (d : Nat) (h : d < 10) :
    digitVal (digitChar d) = some d := by
  interval_cases d <;> rfl

theorem readNum_padChars (w : Nat) : ∀ (acc n : Nat) (rest : List Char),
    readNum w acc (padChars w n ++ rest) =
      some (acc * 10 ^ w + n % 10 ^ w, rest) := by
  induction w with
  | zero => intro acc n rest; simp [readNum, padChars, Nat.mod_one]
  | succ w ih =>
      intro acc n rest
      have hd : n / 10 ^ w % 10 < 10 := Nat.mod_lt _ (by norm_num)
      simp only [padChars, List.cons_append, readNum,
        digitVal_digitChar _ hd, List.append_eq]
      rw [ih]
      have hpow : (10 : Nat) ^ (w + 1) = 10 ^ w * 10 := pow_succ 10 w
      have hmod : n % 10 ^ (w + 1) = n % 10 ^ w + 10 ^ w * (n / 10 ^ w % 10) := by
        rw [hpow, Nat.mod_mul]
      congr 2
      rw [hmod, hpow]
      ring

theorem readNum_padChars_nil (w acc n : Nat) :
    readNum w acc (padChars w n) = some (acc * 10 ^ w + n % 10 ^ w, []) := by
  simpa using readNum_padChars w acc n []

set_option maxHeartbeats 1600000 in
theorem parseIsoChars_isoChars (d : DateTime) (h : validDateTime d) :
    parseIsoChars (isoChars d) = some d := by
  obtain ⟨y, mo, da, ho, mi, se, us⟩ := d
  obtain ⟨h1, h2, h3, h4, h5, h6, h7⟩ := h
  have e1 : y % 10000 = y := Nat.mod_eq_of_lt h1
  have e2 : mo % 100 = mo := Nat.mod_eq_of_lt h2
  have e3 : da % 100 = da := Nat.mod_eq_of_lt h3
  have e4 : ho % 100 = ho := Nat.mod_eq_of_lt h4
  have e5 : mi % 100 = mi := Nat.mod_eq_of_lt h5
  have e6 : se % 100 = se := Nat.mod_eq_of_lt h6
  have e7 : us % 1000000 = us := Nat.mod_eq_of_lt h7
  by_cases hus : us = 0
  · subst hus
    simp [parseIsoChars, isoChars, readNum_padChars, readNum_padChars_nil,
      expectChar, e1, e2, e3, e4, e5, e6]
  · simp [parseIsoChars, isoChars, hus, readNum_padChars,
      readNum_padChars_nil, expectChar, e1, e2, e3, e4, e5, e6, e7]

theorem fromisoformat_isoformat (d : DateTime) (h : validDateTime d) :
    fromisoformat (isoformat d) = some d :=
  parseIsoChars_isoChars d h

/-!
Section: Lemmas: pydantic re-validation inverts serialisation
-/

theorem asOpt_optNumJson (o : Option ℚ) :
    Json.asOpt Json.asNum (optNumJson o) = some o := by
  cases o <;> rfl

theorem asOpt_optStrJson (o : Option String) :
    Json.asOpt Json.asStr (optStrJson o) = some o := by
  cases o <;> rfl

theorem parseTrackType_value (ty : TrackType) :
    parseTrackType ty.value = some ty := by
  cases ty <;> rfl

theorem parseAspectRatio_value (a : AspectRatio) :
    parseAspectRatio a.value = some a := by
  cases a <;> rfl

theorem parseEditMode_value (m : EditMode) :
    parseEditMode m.value = some m := by
  cases m <;> rfl

theorem asInt_intCast (i : Int) : Json.asInt (Json.num (i : ℚ)) = some i := by
  simp [Json.asInt]

theorem loadTrack_trackToDict (t : VideoTrack)
    (h : transcriptionDictLike t = true) : loadTrack (trackToDict t) = some t := by
  obtain ⟨tid, ty, fn, fp, du, st, et, pos, md, tr⟩ := t
  rcases tr with _ | j
  · simp [loadTrack, trackToDict, List.lookup, Json.asStr, Json.asNum,
      asOpt_optNumJson, asInt_intCast, parseTrackType_value]
  · cases j with
    | obj o =>
        simp [loadTrack, trackToDict, List.lookup, Json.asStr, Json.asNum,
          asOpt_optNumJson, asInt_intCast, parseTrackType_value]
    | null => simp [transcriptionDictLike] at h
    | str s => simp [transcriptionDictLike] at h
    | num q => simp [transcriptionDictLike] at h
    | bool b => simp [transcriptionDictLike] at h
    | arr l => simp [transcriptionDictLike] at h

theorem loadSettings_settingsToDict (s : ProjectSettings) :
    loadSettings (settingsToDict s) = some s := by
  obtain ⟨ar, em, rd, sp, gs, ins⟩ := s
  simp [loadSettings, settingsToDict, List.lookup, Json.asStr, Json.asBool,
    parseAspectRatio_value, parseEditMode_value]

theorem loadTracks_map (l : List VideoTrack)
    (h : ∀ t ∈ l, transcriptionDictLike t = true) :
    loadTracks (l.map trackToDict) = some l := by
  induction l with
  | nil => rfl
  | cons t rest ih =>
      simp only [List.map_cons, loadTracks,
        loadTrack_trackToDict t (h t (by simp)),
        ih (fun u hu => h u (by simp [hu]))]
      rfl

/-!
Section: Lemmas: shape of the transformed transcription
-/

theorem transformSegments_words (l : List ApiSegment) : ∀ i : Nat,
    (transformSegments i l).1 =
      ((transformSegments i l).2.map Segment.words).join := by
  induction l with
  | nil => intro i; rfl
  | cons s rest ih =>
      intro i
      simp [transformSegments, ih (i + 1)]

theorem transformSegments_word_texts (l : List ApiSegment) : ∀ i : Nat,
    (transformSegments i l).2.map (fun s => s.words.map WordTimestamp.word) =
      l.map (fun s => (s.words.getD []).map (fun w => w.text.getD "")) := by
  induction l with
  | nil => intro i; rfl
  | cons s rest ih =>
      intro i
      simp [transformSegments, ih (i + 1), transformWord, Function.comp]

/-- C6.  The canonical-shape normalization: each provider word's `text` field
lands in the canonical `word` field, the top-level `words` sequence is the
in-order flattening of the per-segment word lists, and `duration` is the end
time of the last segment (0 when there are no segments). -/
theorem transcript_normalization (api : ApiResult) (language : String) (now : ℚ) :
    (transform_api_response api language now).words =
      (((transform_api_response api language now).segments).map Segment.words).join ∧
    ((transform_api_response api language now).segments).map
        (fun s => s.words.map WordTimestamp.word) =
      (api.segments.getD []).map
        (fun s => (s.words.getD []).map (fun w => w.text.getD "")) ∧
    (transform_api_response api language now).duration =
      (((api.segments.getD []).getLast?).map (fun s => s.end_.getD 0)).getD 0 := by
  refine ⟨?_, ?_, ?_⟩
  · simp [transform_api_response, transformSegments_words]
  · simp [transform_api_response, transformSegments_word_texts]
  · cases hseg : api.segments with
    | none => simp [transform_api_response, transformDuration, hseg]
    | some segs =>
        cases hl : segs.getLast? with
        | none => simp [transform_api_response, transformDuration, hseg, hl]
        | some lastSeg =>
            simp [transform_api_response, transformDuration, hseg, hl]

/-- C5.  Chronological arrangement: the output is obtained from a
permutation of the index-tagged tracks that is strictly sorted by
(creation-time key, original position) — ascending keys, ties broken by
original position — with each track's `position` reassigned to its sort
index; on the concrete metadata `[30, 10, 20]` the original tracks end with
positions `[2, 0, 1]`; manual mode leaves the track list untouched. -/
theorem chronological_ordering :
    (arrange_tracks_chronologically
        [ctTrack "a" 30 0, ctTrack "b" 10 1, ctTrack "c" 20 2] =
      [{ ctTrack "b" 10 1 with position := 0 },
        { ctTrack "c" 20 2 with position := 1 },
        { ctTrack "a" 30 0 with position := 2 }]) ∧
    (∀ tracks : List VideoTrack, ∃ perm : List (Nat × VideoTrack),
      perm.Perm tracks.enum ∧
      List.Pairwise (fun a b => creationTimeKey a.2 < creationTimeKey b.2 ∨
        (creationTimeKey a.2 = creationTimeKey b.2 ∧ a.1 < b.1)) perm ∧
      arrange_tracks_chronologically tracks =
        (perm.enum).map (fun q => { q.2.2 with position := (q.1 : Int) })) ∧
    (∀ p : Project, p.settings.edit_mode = EditMode.manual →
      prepareTracks p = p.tracks.enum) := by
  refine ⟨by rfl, ?_, ?_⟩
  · intro tracks
    haveI : IsTotal (Nat × VideoTrack) (pyKeyOrder creationTimeKey) := ⟨by
      intro a b
      rcases lt_trichotomy (creationTimeKey a.2) (creationTimeKey b.2) with h | h | h
      · exact Or.inl (Or.inl h)
      · rcases Nat.le_total a.1 b.1 with hl | hl
        · exact Or.inl (Or.inr ⟨h, hl⟩)
        · exact Or.inr (Or.inr ⟨h.symm, hl⟩)
      · exact Or.inr (Or.inl h)⟩
    haveI : IsTrans (Nat × VideoTrack) (pyKeyOrder creationTimeKey) := ⟨by
      intro a b c hab hbc
      rcases hab with h1 | ⟨e1, l1⟩ <;> rcases hbc with h2 | ⟨e2, l2⟩
      · exact Or.inl (h1.trans h2)
      · exact Or.inl (e2 ▸ h1)
      · exact Or.inl (lt_of_eq_of_lt e1 h2)
      · exact Or.inr ⟨e1.trans e2, l1.trans l2⟩⟩
    refine ⟨(tracks.enum).insertionSort (pyKeyOrder creationTimeKey),
      List.perm_insertionSort _ _, ?_, ?_⟩
    · have hsorted : List.Pairwise (pyKeyOrder creationTimeKey)
          ((tracks.enum).insertionSort (pyKeyOrder creationTimeKey)) :=
        List.sorted_insertionSort (pyKeyOrder creationTimeKey) tracks.enum
      have hnodup : (((tracks.enum).insertionSort
          (pyKeyOrder creationTimeKey)).map Prod.fst).Nodup := by
        have hperm :=
          (List.perm_insertionSort (pyKeyOrder creationTimeKey) tracks.enum).map
            Prod.fst
        have hbase : (tracks.enum.map Prod.fst).Nodup := by
          rw [List.enum_map_fst]; exact List.nodup_range _
        exact hperm.symm.nodup hbase
      have hne : List.Pairwise (fun a b : Nat × VideoTrack => a.1 ≠ b.1)
          ((tracks.enum).insertionSort (pyKeyOrder creationTimeKey)) :=
        List.pairwise_map.mp hnodup
      refine (List.Pairwise.and hsorted hne).imp ?_
      rintro a b ⟨hab, hne2⟩
      rcases hab with h | ⟨he, hl⟩
      · exact Or.inl h
      · exact Or.inr ⟨he, lt_of_le_of_ne hl hne2⟩
    · unfold arrange_tracks_chronologically pySortedByKey
      rw [List.enum_map, List.map_map]
      rfl
  · intro p h
    simp [prepareTracks, h]

/-- Witness for C5: a concrete manual-mode project passes through the
arrangement step unchanged. -/
theorem chronological_ordering_witness :
    prepareTracks { sampleProject with
      settings := { defaultSettings with edit_mode := EditMode.manual }
      tracks := [sampleTrack] } = [(0, sampleTrack)] := by
  rw [chronological_ordering.2.2 _ rfl]
  rfl

/-- C1 (amended).  `process_project` has no reentrancy guard: the project's
prior status is overwritten unconditionally, so the run's entire outcome is
independent of the initial status — a call on a project already `processing`
proceeds exactly like any other call instead of failing fast. -/
theorem reentrancy_guard_missing (env : PipelineEnv) (pid : String)
    (p : Project) (s : String) :
    process_project env pid (some { p with status := s }) =
      process_project env pid (some p) := rfl

/-- Counterexample to C1 as stated: for a concrete project whose status is
already `processing`, `process_project` does not fail fast with
`AlreadyProcessing` — it runs to completion and returns `ok`. -/
theorem reentrancy_guard_missing_counterexample :
    ({ sampleProject with status := "processing" } : Project).status =
      "processing" ∧
    (process_project okPipelineEnv "p1"
        (some { sampleProject with status := "processing" })).1 =
      Except.ok { sampleProject with
        status := "completed"
        output_path := some "temp/final_output_AspectRatio.HORIZONTAL.mp4"
        updated_at := sampleDT2 } :=
  ⟨rfl, rfl⟩

/-- C2 (amended).  Terminal-state contract of `process_project`: on success
the returned project is `completed` with an output path set, its
`updated_at` refreshed to the wall clock, and it is the last persisted
snapshot; on failure the last persisted snapshot is in `error` with
`updated_at` refreshed — but its `output_path` keeps whatever value the
project carried before the run (the model has no `errorMessage` field at
all, so none is recorded). -/
theorem terminal_state_contract (env : PipelineEnv) (pid : String) (p : Project) :
    (∀ q, (process_project env pid (some p)).1 = Except.ok q →
      q.status = "completed" ∧ q.output_path.isSome = true ∧
      q.updated_at = env.now ∧
      (process_project env pid (some p)).2.getLast? = some q) ∧
    (∀ e, (process_project env pid (some p)).1 = Except.error e →
      ∃ q, (process_project env pid (some p)).2.getLast? = some q ∧
        q.status = "error" ∧ q.output_path = p.output_path ∧
        q.updated_at = env.now) := by
  cases hr : (video_process_project env.ffmpeg
      (transcribe_tracks env { p with status := "processing" })).1 with
  | ok out =>
      constructor
      · intro q hq
        simp only [process_project, hr] at hq
        simp only [Except.ok.injEq] at hq
        subst hq
        refine ⟨rfl, rfl, rfl, ?_⟩
        simp only [process_project, hr]
        rfl
      · intro e he
        simp only [process_project, hr] at he
        exact Except.noConfusion he
  | error e0 =>
      constructor
      · intro q hq
        simp only [process_project, hr] at hq
        exact Except.noConfusion hq
      · intro e he
        refine ⟨{ transcribe_tracks env { p with status := "processing" } with
          tracks := (video_process_project env.ffmpeg
            (transcribe_tracks env { p with status := "processing" })).2
          status := "error"
          updated_at := env.now }, ?_, rfl, rfl, rfl⟩
        simp only [process_project, hr]
        rfl

/-- Counterexample to C2 as stated: a previously completed project is
re-processed and the run fails; the persisted terminal snapshot has
`status = "error"` but its `output_path` is still set (the stale
`old.mp4`), contradicting `status=error ⇒ outputPath unset`. -/
theorem terminal_state_contract_counterexample :
    ((process_project failPipelineEnv "p1"
        (some { sampleProject with status := "completed", output_path := some "old.mp4" })).2.getLast?.map
      (fun q => (q.status, q.output_path))) = some ("error", some "old.mp4") :=
  rfl

/-- Witness for C2: the success branch of the contract at a concrete run. -/
theorem terminal_state_contract_witness :
    ∃ q, (process_project okPipelineEnv "p1" (some sampleProject)).1 =
        Except.ok q ∧ q.status = "completed" ∧ q.updated_at = sampleDT2 := by
  have h := (terminal_state_contract okPipelineEnv "p1" sampleProject).1
  have hq : (process_project okPipelineEnv "p1" (some sampleProject)).1 =
      Except.ok { sampleProject with
        status := "completed"
        output_path := some "temp/final_output_AspectRatio.HORIZONTAL.mp4"
        updated_at := sampleDT2 } := rfl
  obtain ⟨h1, h2, h3, h4⟩ := h _ hq
  exact ⟨_, hq, h1, h3⟩

/-- C3.  Stage-1 per-track fault policy: `_transcribe_tracks` never changes
the project status, a track whose transcription call fails keeps its
previous `transcription` value, and the run's overall success is decided
solely by the render stage — the pipeline reaches stage 2 and beyond no
matter how many per-track transcriptions failed. -/
theorem stage1_fault_tolerance (env : PipelineEnv) (pid : String) (p : Project) :
    (transcribe_tracks env p).status = p.status ∧
    (∀ i, (env.transcribe i).isOk = false →
      ((transcribe_tracks env p).tracks[i]?.map (fun t => t.transcription)) =
        (p.tracks[i]?.map (fun t => t.transcription))) ∧
    ((process_project env pid (some p)).1.isOk =
      (video_process_project env.ffmpeg
        (transcribe_tracks env { p with status := "processing" })).1.isOk) := by
  refine ⟨rfl, ?_, ?_⟩
  · intro i hi
    simp only [transcribe_tracks, List.getElem?_map, List.getElem?_enum]
    cases hti : p.tracks[i]? with
    | none => rfl
    | some t =>
        rcases htr : env.transcribe i with e | j
        · simp [htr, ite_self]
        · rw [htr] at hi
          simp [Except.isOk, Except.toBool] at hi
  · cases hr : (video_process_project env.ffmpeg
        (transcribe_tracks env { p with status := "processing" })).1 <;>
      simp only [process_project, hr] <;> rfl

/-- Witness for C3 at a concrete project whose only track's transcription
call raises: the status is untouched and the track is left without a
transcript. -/
theorem stage1_fault_tolerance_witness :
    (transcribe_tracks failPipelineEnv
        { sampleProject with tracks := [sampleTrack] }).status = "draft" ∧
    ((transcribe_tracks failPipelineEnv
        { sampleProject with tracks := [sampleTrack] }).tracks[0]?.map
      (fun t => t.transcription)) = some none := by
  have h := stage1_fault_tolerance failPipelineEnv "p1"
    { sampleProject with tracks := [sampleTrack] }
  refine ⟨h.1, ?_⟩
  rw [h.2.1 0 rfl]
  rfl

/-- C4 (amended).  `_combine_tracks`: one path is stream-copied; any other
length (zero included) takes the concat branch, whose reference list is the
input paths in order.  A zero-track project reaches the concatenate step —
no stage fails earlier — and its outcome is exactly the concat invocation's
outcome: there is no `EmptyInput` check anywhere. -/
theorem concatenate_contract (t : VideoTrack) (ts : List VideoTrack)
    (s : ProjectSettings) (env : FfmpegEnv) (p : Project) :
    ((combine_tracks [t] s).cmd =
        ["ffmpeg", "-i", t.file_path, "-c", "copy", "-y",
          (combine_tracks [t] s).output] ∧
      (combine_tracks [t] s).fileListLines = none) ∧
    (ts.length ≠ 1 →
      (combine_tracks ts s).fileListLines =
        some (ts.map (fun u => "file " ++ singleQuote ++ u.file_path ++
          singleQuote))) ∧
    (p.tracks = [] →
      (video_process_project env p).1 =
        match runFfmpegCommand env (combine_tracks [] p.settings).cmd with
        | .ok _ => .ok (combine_tracks [] p.settings).output
        | .error e => .error e) := by
  refine ⟨⟨rfl, rfl⟩, ?_, ?_⟩
  · intro h
    match ts with
    | [] => rfl
    | [a] => exact absurd rfl h
    | a :: b :: rest => rfl
  · intro h0
    have hprep : prepareTracks p = [] := by
      unfold prepareTracks
      rw [h0]
      split <;> rfl
    unfold video_process_project
    rw [hprep]
    simp only [processTracksSeq, List.map_nil]
    cases hrun : runFfmpegCommand env (combine_tracks [] p.settings).cmd <;>
      simp [hrun]

/-- Counterexample to C4 as stated: with zero tracks and every external
process succeeding, the render stage returns `ok` — there is no `EmptyInput`
failure; the empty input falls into the concat branch with an empty
reference list. -/
theorem concatenate_contract_counterexample :
    (video_process_project okFfmpeg sampleProject).1 =
      Except.ok "temp/final_output_AspectRatio.HORIZONTAL.mp4" ∧
    (combine_tracks [] defaultSettings).fileListLines = some [] :=
  ⟨rfl, rfl⟩

/-- Witness for C4: the single-path copy branch and the multi-path ordered
reference list at concrete inputs. -/
theorem concatenate_contract_witness :
    (combine_tracks [sampleTrack] defaultSettings).fileListLines = none ∧
    (combine_tracks [sampleTrack, ctTrack "b" 10 1]
        defaultSettings).fileListLines =
      some ([sampleTrack, ctTrack "b" 10 1].map
        (fun u => "file " ++ singleQuote ++ u.file_path ++ singleQuote)) := by
  have h := concatenate_contract sampleTrack [sampleTrack, ctTrack "b" 10 1]
    defaultSettings okFfmpeg sampleProject
  exact ⟨h.1.2, h.2.1 (by decide)⟩

/-- C7.  Store round trip: saving a project to its persisted JSON record and
re-validating it back yields the identical project, timestamps included, for
any number of tracks. -/
theorem store_roundtrip (p : Project) (h : validProject p) :
    loadProject (saveProject p) = some p := by
  obtain ⟨h1, h2, h3, h4⟩ := h
  obtain ⟨pid, nm, de, ca, ua, tks, st, stat, op, uid⟩ := p
  simp only at h1 h2 h3 h4
  simp [loadProject, saveProject, List.lookup, Json.asStr,
    fromisoformat_isoformat _ h1, fromisoformat_isoformat _ h2,
    asOpt_optStrJson, loadTracks_map _ h4, loadSettings_settingsToDict, h3]

/-- Witness for C7 at a concrete two-track project (one track carrying a
transcription dict). -/
theorem store_roundtrip_witness :
    loadProject (saveProject { sampleProject with
        description := some "d"
        status := "completed"
        output_path := some "out.mp4"
        tracks := [sampleTrack, { sampleTrack with id := "t2", transcription := some (Json.obj [("text", Json.str "hi")]) }] }) =
      some { sampleProject with
        description := some "d"
        status := "completed"
        output_path := some "out.mp4"
        tracks := [sampleTrack, { sampleTrack with id := "t2", transcription := some (Json.obj [("text", Json.str "hi")]) }] } :=
  store_roundtrip _ ⟨by decide, by decide, by decide, by decide⟩

/-- C8 (amended).  Transcription-client failure behaviour: every call makes
exactly one outbound request (no retry), the call's outcome is entirely
independent of the audio bytes — in particular empty input is not rejected
before the network call — a non-200 response raises an error carrying the
status, and the bounded wait defaults to 60 seconds. -/
theorem client_failure_contract (env : WhisperEnv) (a b : List Nat)
    (f l : String) :
    ((transcribe_audio env a f l).2 = 1) ∧
    (transcribe_audio env a f l = transcribe_audio env b f l) ∧
    (∀ status body, env.response = Except.ok (status, body) → status ≠ 200 →
      (transcribe_audio env a f l).1 =
        Except.error ("API returned status " ++ toString status)) ∧
    whisperDefaultTimeout = 60 := by
  refine ⟨?_, rfl, ?_, rfl⟩
  · rcases henv : env.response with e | ⟨st, bd⟩ <;>
      simp [transcribe_audio, callRealApi, henv] <;>
      by_cases h200 : st = 200 <;> simp [h200]
  · intro st bd he hne
    simp [transcribe_audio, callRealApi, he, hne]

/-- Counterexample to C8 as stated: a call with empty audio bytes does not
fail with `EmptyAudio` — the network request is made (request count 1) and,
with the provider answering 200, the call succeeds. -/
theorem client_failure_contract_counterexample :
    transcribe_audio okWhisperEnv [] "a.wav" "en" =
      (Except.ok (Json.obj [("text", Json.str "hi")]), 1) :=
  rfl

/-- Witness for C8: the non-success branch at a concrete 503 response. -/
theorem client_failure_contract_witness :
    (transcribe_audio errWhisperEnv [] "a.wav" "en").1 =
      Except.error "API returned status 503" := by
  have h := (client_failure_contract errWhisperEnv [] [1] "a.wav" "en").2.2.1
    503 (Json.str "unavailable") rfl (by decide)
  rw [h]
  rfl

/-- C9 (amended).  Aspect-ratio normalisation: the ffmpeg invocation scales
and pads to 1920×1080 (horizontal) or 720×1280 (vertical), stream-copies the
audio (`-c:a copy`), and writes to `temp/processed_{id}.mp4` under the
temporary area; that output path differs from the input whenever the input
is not itself the processed path (on a rerun it can coincide — see the
counterexample). -/
theorem aspect_normalization_contract (track : VideoTrack)
    (aspect : AspectRatio) :
    ((adjust_aspect_ratio track aspect).2 =
      ["ffmpeg", "-i", track.file_path, "-vf", scaleFilterFor aspect, "-c:a",
        "copy", "-y", (adjust_aspect_ratio track aspect).1.file_path]) ∧
    (scaleFilterFor AspectRatio.horizontal =
      "scale=1920:1080:force_original_aspect_ratio=decrease,pad=1920:1080:(ow-iw)/2:(oh-ih)/2") ∧
    (scaleFilterFor AspectRatio.vertical =
      "scale=720:1280:force_original_aspect_ratio=decrease,pad=720:1280:(ow-iw)/2:(oh-ih)/2") ∧
    ((adjust_aspect_ratio track aspect).1.file_path =
      "temp/processed_" ++ track.id ++ ".mp4") ∧
    (track.file_path ≠ "temp/processed_" ++ track.id ++ ".mp4" →
      (adjust_aspect_ratio track aspect).1.file_path ≠ track.file_path) := by
  refine ⟨rfl, rfl, rfl, rfl, ?_⟩
  intro h he
  exact h (he.symm.trans rfl)

/-- Counterexample to C9 as stated: on a track whose `file_path` already is
the processed path (the state `_adjust_aspect_ratio` itself leaves behind,
so any rerun hits it), the ffmpeg invocation's overwrite target (`-y`, last
argument) is the input path itself — the operation mutates its input
file. -/
theorem aspect_normalization_counterexample :
    (adjust_aspect_ratio { sampleTrack with file_path := "temp/processed_t1.mp4" } AspectRatio.horizontal).1.file_path =
      ({ sampleTrack with file_path := "temp/processed_t1.mp4" } : VideoTrack).file_path ∧
    (adjust_aspect_ratio { sampleTrack with file_path := "temp/processed_t1.mp4" } AspectRatio.horizontal).2.getLast? =
      some "temp/processed_t1.mp4" :=
  ⟨rfl, rfl⟩

/-- Witness for C9: on a freshly uploaded track the processed path is fresh
and differs from the input. -/
theorem aspect_normalization_contract_witness :
    (adjust_aspect_ratio sampleTrack AspectRatio.horizontal).1.file_path =
      "temp/processed_t1.mp4" ∧
    (adjust_aspect_ratio sampleTrack AspectRatio.horizontal).1.file_path ≠
      sampleTrack.file_path := by
  have h := aspect_normalization_contract sampleTrack AspectRatio.horizontal
  exact ⟨h.2.2.2.1.trans rfl, h.2.2.2.2 (by decide)⟩

/-- C10.  Track-kind classification at creation: a file whose (lowercased)
extension is in none of the recognised video/audio/image lists is classified
`video` by default, track creation always succeeds and stores that kind, and
no later pipeline step (aspect-ratio processing, transcription) ever changes
a track's kind. -/
theorem default_track_kind (suffix : String) (newId fileName filePath : String)
    (fileSize : ℚ) (pos : Int)
    (h1 : pyLower suffix ∉ videoExtensions)
    (h2 : pyLower suffix ∉ audioExtensions)
    (h3 : pyLower suffix ∉ imageExtensions) :
    trackTypeForSuffix suffix = TrackType.video ∧
    (create_track_from_file newId fileName suffix fileSize filePath pos).type =
      trackTypeForSuffix suffix ∧
    (∀ t a, (adjust_aspect_ratio t a).1.type = t.type) ∧
    (∀ (env : PipelineEnv) (p : Project) (i : Nat),
      ((transcribe_tracks env p).tracks[i]?.map (fun t => t.type)) =
        (p.tracks[i]?.map (fun t => t.type))) := by
  refine ⟨by simp [trackTypeForSuffix, h1, h2, h3], rfl, fun t a => rfl, ?_⟩
  intro env p i
  simp only [transcribe_tracks, List.getElem?_map, List.getElem?_enum]
  cases hti : p.tracks[i]? with
  | none => rfl
  | some t =>
      rcases htr : env.transcribe i with e | j <;> simp [htr] <;>
        split <;> rfl

/-- Witness for C10 at the unrecognised extension `.txt`. -/
theorem default_track_kind_witness :
    trackTypeForSuffix ".txt" = TrackType.video ∧
    (create_track_from_file "id1" "notes.txt" ".txt" 5 "uploads/notes.txt"
      0).type = TrackType.video := by
  have h := default_track_kind ".txt" "id1" "notes.txt" "uploads/notes.txt"
    5 0 (by decide) (by decide) (by decide)
  exact ⟨h.1, h.2.1.trans h.1⟩
